import Mathlib

/-!
Shallow embedding of the scoring and aggregation core of the ergonomic
risk analyzer (files app/models.py, app/services.py, app/questionnaire.py).

The embedded parts are:
  * the closed enumerations SeverityLevel, FrequencyLevel, RiskLevel and
    BodyPartType from app/models.py;
  * GotrakService.calculate_gotrak_score and
    GotrakService.get_gotrak_risk_level from app/services.py;
  * RulaCalculationService.calculate_rula_score and
    RulaCalculationService.get_risk_level_from_rula_score from
    app/services.py;
  * BodyPartAssessmentService.create_body_part_assessment from
    app/services.py (with the database round trip stripped: the function
    is modelled as the pure record it constructs and persists);
  * GotrakQuestionnaireComponent._calculate_overall_scores from
    app/questionnaire.py, modelled from the list of body part assessment
    records it fetches onward.

Python Decimal values are modelled as rationals, Python float angle
values as rationals, Python dictionaries as association lists.
-/

namespace ErgoRisk

/-- SeverityLevel from app/models.py: a str Enum with four members. -/
inductive SeverityLevel
  | NO_PROBLEM
  | UNCOMFORTABLE
  | PAIN
  | SEVERE_PAIN
deriving DecidableEq

/-- FrequencyLevel from app/models.py: a str Enum with four members. -/
inductive FrequencyLevel
  | NEVER
  | SOMETIMES
  | OFTEN
  | ALWAYS
deriving DecidableEq

/-- RiskLevel from app/models.py: a str Enum with three members. -/
inductive RiskLevel
  | GREEN
  | YELLOW
  | RED
deriving DecidableEq

/-- BodyPartType from app/models.py: a str Enum with 21 members. -/
inductive BodyPartType
  | NECK
  | SHOULDER_LEFT
  | SHOULDER_RIGHT
  | ARM_LEFT
  | ARM_RIGHT
  | ELBOW_LEFT
  | ELBOW_RIGHT
  | WRIST_LEFT
  | WRIST_RIGHT
  | HAND_LEFT
  | HAND_RIGHT
  | UPPER_BACK
  | LOWER_BACK
  | HIP_LEFT
  | HIP_RIGHT
  | THIGH_LEFT
  | THIGH_RIGHT
  | KNEE_LEFT
  | KNEE_RIGHT
  | ANKLE_LEFT
  | ANKLE_RIGHT
deriving DecidableEq

/-- The string value of a SeverityLevel member (it is a str Enum, so the
member and its value compare equal as dictionary keys). -/
def SeverityLevel.value : SeverityLevel → String
  | .NO_PROBLEM => "No problem"
  | .UNCOMFORTABLE => "Uncomfortable"
  | .PAIN => "Pain"
  | .SEVERE_PAIN => "Severe pain"

/-- The string value of a FrequencyLevel member. -/
def FrequencyLevel.value : FrequencyLevel → String
  | .NEVER => "Never"
  | .SOMETIMES => "Sometimes"
  | .OFTEN => "Often"
  | .ALWAYS => "Always"

/-- The ordinal rank of a RiskLevel in the order green < yellow < red
(spec section 3: RiskLevel is an ordered enumeration). -/
def RiskLevel.rank : RiskLevel → Nat
  | .GREEN => 0
  | .YELLOW => 1
  | .RED => 2

/-- The severity_scores dictionary from calculate_gotrak_score
(app/services.py lines 317 to 322), keyed by the str Enum values. -/
def severity_scores : List (String × Int) :=
  [("No problem", 1), ("Uncomfortable", 2), ("Pain", 3), ("Severe pain", 4)]

/-- The frequency_scores dictionary from calculate_gotrak_score
(app/services.py lines 324 to 329), keyed by the str Enum values. -/
def frequency_scores : List (String × Int) :=
  [("Never", 1), ("Sometimes", 2), ("Often", 3), ("Always", 4)]

/-- Python dict.get(key, default) on an association list. -/
def dictGetD (d : List (String × Int)) (k : String) (default : Int) : Int :=
  (d.lookup k).getD default

/-- GotrakService.calculate_gotrak_score from app/services.py lines 314
to 334, over raw string inputs. SeverityLevel and FrequencyLevel are str
Enums, so the dictionary lookups severity_scores.get(severity, 1) and
frequency_scores.get(frequency, 1) hit on the string value of the member
and fall back to the default 1 on any other string. -/
def calculate_gotrak_score_raw (severity frequency : String) : Int :=
  dictGetD severity_scores severity 1 * dictGetD frequency_scores frequency 1

/-- GotrakService.calculate_gotrak_score applied to members of the closed
enumerations (the typed call path used by the rest of the code). -/
def calculate_gotrak_score (severity : SeverityLevel) (frequency : FrequencyLevel) : Int :=
  calculate_gotrak_score_raw severity.value frequency.value

/-- GotrakService.get_gotrak_risk_level from app/services.py lines 336
to 344. -/
def get_gotrak_risk_level (gotrak_score : Int) : RiskLevel :=
  if gotrak_score ≤ 4 then RiskLevel.GREEN
  else if gotrak_score = 6 then RiskLevel.YELLOW
  else RiskLevel.RED

/-- The scores dictionary built by calculate_rula_score: it either stays
empty (modelled as none) or holds both position_score and final_score. -/
structure RulaScores where
  position_score : Int
  final_score : Int
deriving DecidableEq

/-- The angles argument of calculate_rula_score: a Python dictionary from
measurement name to a float angle, modelled as an association list over
rationals. -/
abbrev AngleMeasurements := List (String × ℚ)

/-- RulaCalculationService.calculate_rula_score from app/services.py
lines 193 to 246. The match on body_part has arms for NECK, ARM_LEFT and
ARM_RIGHT, UPPER_BACK, and a catch-all default; for the first three arms
a missing measurement key leaves the scores dictionary empty (none). -/
def calculate_rula_score (angles : AngleMeasurements) (body_part : BodyPartType) :
    Option RulaScores :=
  match body_part with
  | BodyPartType.NECK =>
      match angles.lookup "neck_flexion" with
      | some neck_angle =>
          if neck_angle < 10 then some ⟨1, 1⟩
          else if neck_angle < 20 then some ⟨2, 2⟩
          else some ⟨3, 3⟩
      | none => none
  | BodyPartType.ARM_LEFT =>
      match angles.lookup "left_upper_arm" with
      | some arm_angle =>
          if arm_angle < 20 then some ⟨1, 1⟩
          else if arm_angle < 45 then some ⟨2, 2⟩
          else if arm_angle < 90 then some ⟨3, 3⟩
          else some ⟨4, 4⟩
      | none => none
  | BodyPartType.ARM_RIGHT =>
      match angles.lookup "right_upper_arm" with
      | some arm_angle =>
          if arm_angle < 20 then some ⟨1, 1⟩
          else if arm_angle < 45 then some ⟨2, 2⟩
          else if arm_angle < 90 then some ⟨3, 3⟩
          else some ⟨4, 4⟩
      | none => none
  | BodyPartType.UPPER_BACK =>
      match angles.lookup "trunk_flexion" with
      | some trunk_angle =>
          if trunk_angle < 5 then some ⟨1, 1⟩
          else if trunk_angle < 20 then some ⟨2, 2⟩
          else if trunk_angle < 60 then some ⟨3, 3⟩
          else some ⟨4, 4⟩
      | none => none
  | _ => some ⟨2, 2⟩

/-- RulaCalculationService.get_risk_level_from_rula_score from
app/services.py lines 248 to 256. -/
def get_risk_level_from_rula_score (rula_score : Int) : RiskLevel :=
  if rula_score ≤ 2 then RiskLevel.GREEN
  else if rula_score ≤ 4 then RiskLevel.YELLOW
  else RiskLevel.RED

/-- The measurement key consulted by calculate_rula_score for a body
part, read off the match arms of app/services.py lines 198 to 244; none
for the body parts handled by the catch-all default arm. -/
def relevant_key : BodyPartType → Option String
  | BodyPartType.NECK => some "neck_flexion"
  | BodyPartType.ARM_LEFT => some "left_upper_arm"
  | BodyPartType.ARM_RIGHT => some "right_upper_arm"
  | BodyPartType.UPPER_BACK => some "trunk_flexion"
  | _ => none

/-- The BodyPartAssessment record from app/models.py lines 110 to 124,
restricted to the fields the scoring core reads and writes. -/
structure BodyPartAssessment where
  assessment_id : Int
  body_part : BodyPartType
  rula_score : Option ℚ
  angle_measurements : AngleMeasurements
  severity_level : Option SeverityLevel
  frequency_level : Option FrequencyLevel
  gotrak_score : Option Int
  gotrak_risk_level : Option RiskLevel
deriving DecidableEq

/-- BodyPartAssessmentService.create_body_part_assessment from
app/services.py lines 348 to 379, with persistence stripped: the pure
record it constructs. rula_data.get("final_score", 2) defaults to 2 when
calculate_rula_score returned an empty dictionary. -/
def create_body_part_assessment (assessment_id : Int) (body_part : BodyPartType)
    (angles : AngleMeasurements) (severity : SeverityLevel) (frequency : FrequencyLevel) :
    BodyPartAssessment :=
  let rula_data := calculate_rula_score angles body_part
  let rula_score : ℚ := (((rula_data.map RulaScores.final_score).getD 2 : Int) : ℚ)
  let gotrak_score := calculate_gotrak_score severity frequency
  let gotrak_risk_level := get_gotrak_risk_level gotrak_score
  { assessment_id := assessment_id
    body_part := body_part
    rula_score := some rula_score
    angle_measurements := angles
    severity_level := some severity
    frequency_level := some frequency
    gotrak_score := some gotrak_score
    gotrak_risk_level := some gotrak_risk_level }

/-- GotrakQuestionnaireComponent._calculate_overall_scores from
app/questionnaire.py lines 265 to 294, modelled from the fetched list of
body part assessment records onward. The empty list returns the defaults
(2, green); otherwise the average of the rula_score values that are not
None (default 2 when none are), and the risk level from the counts of
red and yellow gotrak_risk_level values. -/
def calculate_overall_scores (body_parts : List BodyPartAssessment) : ℚ × RiskLevel :=
  if body_parts.isEmpty then (2, RiskLevel.GREEN)
  else
    let rula_scores := body_parts.filterMap BodyPartAssessment.rula_score
    let avg_rula : ℚ :=
      if ¬ rula_scores.isEmpty then rula_scores.sum / (rula_scores.length : ℚ) else 2
    let high_risk_count :=
      body_parts.countP fun bp => decide (bp.gotrak_risk_level = some RiskLevel.RED)
    let moderate_risk_count :=
      body_parts.countP fun bp => decide (bp.gotrak_risk_level = some RiskLevel.YELLOW)
    let overall_risk :=
      if high_risk_count > 0 then RiskLevel.RED
      else if moderate_risk_count > 1 then RiskLevel.YELLOW
      else RiskLevel.GREEN
    (avg_rula, overall_risk)

/-- The discomfort risk classifications supplied by the body parts of a
session (spec section 3: the gotrak_risk_level values that are present). -/
def discomfort_levels (body_parts : List BodyPartAssessment) : List RiskLevel :=
  body_parts.filterMap BodyPartAssessment.gotrak_risk_level

/-- The rank of the highest discomfort risk classification of a session
(0 when no body part supplies one). -/
def max_discomfort_rank (body_parts : List BodyPartAssessment) : Nat :=
  (discomfort_levels body_parts).foldr (fun l acc => max l.rank acc) 0

/-- The severity rank table as the spec words it (spec section 4.2), for
comparison with the dictionary of the source. -/
def rankSeverity : SeverityLevel → Int
  | .NO_PROBLEM => 1
  | .UNCOMFORTABLE => 2
  | .PAIN => 3
  | .SEVERE_PAIN => 4

/-- The frequency rank table as the spec words it (spec section 4.2),
for comparison with the dictionary of the source. -/
def rankFrequency : FrequencyLevel → Int
  | .NEVER => 1
  | .SOMETIMES => 2
  | .OFTEN => 3
  | .ALWAYS => 4

/-- A body part assessment record with the given discomfort risk level
and posture score and neutral remaining fields, used as concrete input
for the session aggregator theorems. -/
def mkBp (risk : Option RiskLevel) (score : Option ℚ) : BodyPartAssessment :=
  { assessment_id := 1
    body_part := BodyPartType.NECK
    rula_score := score
    angle_measurements := []
    severity_level := none
    frequency_level := none
    gotrak_score := none
    gotrak_risk_level := risk }

/-!
Helper lemmas shared by the session aggregator theorems.
-/

/-- Every RiskLevel rank is at most 2 (red is the top of the order). -/
theorem rank_le_two (l : RiskLevel) : l.rank ≤ 2 := by
  cases l <;> simp [RiskLevel.rank]

/-- A fold of max over ranks is bounded by any bound on the individual
ranks. -/
theorem foldr_max_rank_le (ls : List RiskLevel) (n : Nat)
    (h : ∀ l ∈ ls, l.rank ≤ n) :
    ls.foldr (fun l acc => max l.rank acc) 0 ≤ n := by
  induction ls with
  | nil => simp
  | cons a t ih =>
      simp only [List.foldr_cons]
      exact max_le (h a (List.mem_cons_self a t)) (ih fun l hl => h l (List.mem_cons_of_mem a hl))

/-- C1: for every sequence of body part assessments handed to the
session aggregator, the overall risk level is red if at least one body
part has discomfort risk level red; otherwise yellow if strictly more
than one body part has discomfort risk level yellow; otherwise green.
In particular the else branch covers a session with exactly one yellow
body part and no red ones, which is therefore classified green. -/
theorem overall_risk_precedence (body_parts : List BodyPartAssessment) :
    (calculate_overall_scores body_parts).2 =
      if ∃ bp ∈ body_parts, bp.gotrak_risk_level = some RiskLevel.RED then RiskLevel.RED
      else if 1 < body_parts.countP (fun bp => decide (bp.gotrak_risk_level = some RiskLevel.YELLOW))
        then RiskLevel.YELLOW
      else RiskLevel.GREEN := by
  unfold calculate_overall_scores
  cases body_parts with
  | nil => simp
  | cons a t =>
      simp only [List.isEmpty_cons, if_false, Bool.false_eq_true, gt_iff_lt,
        List.countP_pos_iff, decide_eq_true_eq]

/-- C1 witness: a session with a single yellow discomfort body part is
classified green, by the theorem evaluated at that concrete session. -/
theorem overall_risk_precedence_witness :
    (calculate_overall_scores [mkBp (some RiskLevel.YELLOW) none]).2 = RiskLevel.GREEN := by
  rw [overall_risk_precedence]
  decide

/-- C2 counterexample: a session whose single body part has discomfort
risk level yellow supplies a discomfort classification, yet its overall
risk level green is strictly below the maximum discomfort level yellow,
so the overall level is not always at least the maximum. -/
theorem overall_risk_single_yellow_counterexample :
    discomfort_levels [mkBp (some RiskLevel.YELLOW) none] ≠ [] ∧
    RiskLevel.rank (calculate_overall_scores [mkBp (some RiskLevel.YELLOW) none]).2 <
      max_discomfort_rank [mkBp (some RiskLevel.YELLOW) none] :=
  ⟨by decide, by decide⟩

/-- C2 (amended): for every session with at least one body part
supplying a discomfort risk classification, the overall risk level is at
least the maximum discomfort risk level, except in the single case the
counterexample exhibits: no red body part and exactly one yellow one, in
which case the aggregator stays green below the yellow maximum. -/
theorem overall_risk_dominates_discomfort (body_parts : List BodyPartAssessment)
    (hne : discomfort_levels body_parts ≠ [])
    (hnot : ¬ (body_parts.countP (fun bp => decide (bp.gotrak_risk_level = some RiskLevel.RED)) = 0 ∧
               body_parts.countP (fun bp => decide (bp.gotrak_risk_level = some RiskLevel.YELLOW)) = 1)) :
    max_discomfort_rank body_parts ≤ RiskLevel.rank (calculate_overall_scores body_parts).2 := by
  have hbp : body_parts ≠ [] := by
    intro h
    exact hne (by simp [discomfort_levels, h])
  unfold calculate_overall_scores max_discomfort_rank
  rw [if_neg (by simp [List.isEmpty_iff, hbp])]
  by_cases hred : 0 < body_parts.countP (fun bp => decide (bp.gotrak_risk_level = some RiskLevel.RED))
  · simp only [gt_iff_lt, hred, if_true]
    exact foldr_max_rank_le _ 2 fun l _ => rank_le_two l
  · have hnored : ∀ bp ∈ body_parts, ¬ (bp.gotrak_risk_level = some RiskLevel.RED) := by
      have := Nat.eq_zero_of_not_pos hred
      simpa [List.countP_eq_zero] using this
    have hredzero :
        body_parts.countP (fun bp => decide (bp.gotrak_risk_level = some RiskLevel.RED)) = 0 :=
      Nat.eq_zero_of_not_pos hred
    simp only [gt_iff_lt, hred, if_false]
    by_cases hyel : 1 < body_parts.countP (fun bp => decide (bp.gotrak_risk_level = some RiskLevel.YELLOW))
    · simp only [hyel, if_true]
      refine foldr_max_rank_le _ 1 fun l hl => ?_
      rcases (List.mem_filterMap).1 hl with ⟨bp, hbpmem, hbpeq⟩
      cases l with
      | GREEN => simp [RiskLevel.rank]
      | YELLOW => simp [RiskLevel.rank]
      | RED => exact absurd hbpeq (hnored bp hbpmem)
    · have hyelzero :
          body_parts.countP (fun bp => decide (bp.gotrak_risk_level = some RiskLevel.YELLOW)) = 0 := by
        rcases Nat.lt_or_ge
          (body_parts.countP (fun bp => decide (bp.gotrak_risk_level = some RiskLevel.YELLOW))) 1 with h | h
        · omega
        · exact absurd ⟨hredzero, by omega⟩ hnot
      have hnoyel : ∀ bp ∈ body_parts, ¬ (bp.gotrak_risk_level = some RiskLevel.YELLOW) := by
        simpa [List.countP_eq_zero] using hyelzero
      simp only [hyel, if_false]
      refine foldr_max_rank_le _ 0 fun l hl => ?_
      rcases (List.mem_filterMap).1 hl with ⟨bp, hbpmem, hbpeq⟩
      cases l with
      | GREEN => simp [RiskLevel.rank]
      | YELLOW => exact absurd hbpeq (hnoyel bp hbpmem)
      | RED => exact absurd hbpeq (hnored bp hbpmem)

/-- C2 witness: a session with two yellow body parts satisfies both
hypotheses and its overall level dominates the maximum. -/
theorem overall_risk_dominates_discomfort_witness :
    max_discomfort_rank [mkBp (some RiskLevel.YELLOW) none, mkBp (some RiskLevel.YELLOW) none] ≤
      RiskLevel.rank (calculate_overall_scores
        [mkBp (some RiskLevel.YELLOW) none, mkBp (some RiskLevel.YELLOW) none]).2 :=
  overall_risk_dominates_discomfort _ (by decide) (by decide)

/-- C3: for every integer discomfort score in the range 1 to 16, the
discomfort risk classifier returns green exactly on scores at most 4,
yellow exactly on 6, and red exactly on 5 and on 7 to 16; the concrete
instances 5 red, 6 yellow, 4 green and 16 red follow. -/
theorem gotrak_risk_characterization (s : Int) (h1 : 1 ≤ s) (h2 : s ≤ 16) :
    (get_gotrak_risk_level s = RiskLevel.GREEN ↔ s ≤ 4) ∧
    (get_gotrak_risk_level s = RiskLevel.YELLOW ↔ s = 6) ∧
    (get_gotrak_risk_level s = RiskLevel.RED ↔ (s = 5 ∨ 7 ≤ s)) := by
  unfold get_gotrak_risk_level
  split_ifs with ha hb <;> refine ⟨?_, ?_, ?_⟩ <;> simp_all <;> omega

/-- C3 witness: the characterization evaluated at the boundary scores 5,
6, 4 and 16. -/
theorem gotrak_risk_characterization_witness :
    ((1:Int) ≤ 5 ∧ (5:Int) ≤ 16 ∧
      (get_gotrak_risk_level 5 = RiskLevel.RED ↔ ((5:Int) = 5 ∨ 7 ≤ (5:Int)))) ∧
    (get_gotrak_risk_level 6 = RiskLevel.YELLOW ↔ (6:Int) = 6) ∧
    (get_gotrak_risk_level 4 = RiskLevel.GREEN ↔ (4:Int) ≤ 4) ∧
    (get_gotrak_risk_level 16 = RiskLevel.RED ↔ ((16:Int) = 5 ∨ 7 ≤ (16:Int))) :=
  ⟨⟨by decide, by decide, (gotrak_risk_characterization 5 (by decide) (by decide)).2.2⟩,
   (gotrak_risk_characterization 6 (by decide) (by decide)).2.1,
   (gotrak_risk_characterization 4 (by decide) (by decide)).1,
   (gotrak_risk_characterization 16 (by decide) (by decide)).2.2⟩

/-- C4: for every severity level and every frequency level of the closed
enumerations, the discomfort scorer returns exactly the product of the
severity rank and the frequency rank of the spec, and the result lies in
the range 1 to 16. The scorer is total over the enumerations by
construction, mirroring the dictionary lookups with default of the
source. -/
theorem gotrak_score_is_rank_product (s : SeverityLevel) (f : FrequencyLevel) :
    calculate_gotrak_score s f = rankSeverity s * rankFrequency f ∧
    1 ≤ calculate_gotrak_score s f ∧ calculate_gotrak_score s f ≤ 16 := by
  cases s <;> cases f <;> decide

/-- C4 witness: the rank product theorem evaluated at a concrete pair. -/
theorem gotrak_score_is_rank_product_witness :
    calculate_gotrak_score SeverityLevel.PAIN FrequencyLevel.OFTEN =
      rankSeverity SeverityLevel.PAIN * rankFrequency FrequencyLevel.OFTEN ∧
    1 ≤ calculate_gotrak_score SeverityLevel.PAIN FrequencyLevel.OFTEN ∧
    calculate_gotrak_score SeverityLevel.PAIN FrequencyLevel.OFTEN ≤ 16 :=
  gotrak_score_is_rank_product SeverityLevel.PAIN FrequencyLevel.OFTEN

/-- C5 counterexample: a severity value outside the closed enumeration,
presented to the discomfort scorer over its raw string input domain,
does not fail: the dictionary get falls back to the default 1, so the
call returns the same score as the in-range minimum severity, and the
posture scorer likewise returns the default for a body part with no
threshold table. The scorer is a total function in the source (dict.get
with a default raises nothing), so no InvalidInput condition exists on
this path. -/
theorem unknown_enum_silently_coerced_counterexample :
    calculate_gotrak_score_raw "Excruciating" "Always" = 4 ∧
    calculate_gotrak_score_raw "Excruciating" "Always" =
      calculate_gotrak_score SeverityLevel.NO_PROBLEM FrequencyLevel.ALWAYS ∧
    calculate_rula_score [] BodyPartType.HAND_LEFT = some ⟨2, 2⟩ :=
  ⟨by decide, by decide, by decide⟩

/-- C5 (amended): severity and frequency values outside the closed
enumerations are silently coerced by the discomfort scorer to the
default rank 1 rather than rejected: any pair of unknown strings
produces the same score as the minimal in-range pair, with no failure. -/
theorem unknown_enum_coerced_to_default (s f : String)
    (hs : severity_scores.lookup s = none)
    (hf : frequency_scores.lookup f = none) :
    calculate_gotrak_score_raw s f =
      calculate_gotrak_score SeverityLevel.NO_PROBLEM FrequencyLevel.NEVER := by
  unfold calculate_gotrak_score_raw dictGetD
  rw [hs, hf]
  decide

/-- C5 witness: two concrete strings outside the enumerations are
coerced to the default score. -/
theorem unknown_enum_coerced_to_default_witness :
    calculate_gotrak_score_raw "Bogus" "Rarely" =
      calculate_gotrak_score SeverityLevel.NO_PROBLEM FrequencyLevel.NEVER :=
  unknown_enum_coerced_to_default "Bogus" "Rarely" (by decide) (by decide)

/-- C6: the posture scorer applies half-open threshold intervals: with
the relevant key present, neck flexion below 10 scores 1, in the
interval from 10 up to but excluding 20 scores 2, at 20 and above scores
3; each upper arm scores 1, 2, 3, 4 on the bands below 20, 45, 90 and
above; trunk flexion scores 1, 2, 3, 4 on the bands below 5, 20, 60 and
above; and every body part with no defined table gets the fixed default
2. The boundary instances (10 scores 2, 9999/1000 scores 1, 20 scores 3)
are evaluated in the witness. -/
theorem rula_threshold_tables (angles : AngleMeasurements) (a : ℚ) (bp : BodyPartType) :
    (angles.lookup "neck_flexion" = some a →
      ((a < 10 → calculate_rula_score angles BodyPartType.NECK = some ⟨1, 1⟩) ∧
       (10 ≤ a → a < 20 → calculate_rula_score angles BodyPartType.NECK = some ⟨2, 2⟩) ∧
       (20 ≤ a → calculate_rula_score angles BodyPartType.NECK = some ⟨3, 3⟩))) ∧
    (angles.lookup "left_upper_arm" = some a →
      ((a < 20 → calculate_rula_score angles BodyPartType.ARM_LEFT = some ⟨1, 1⟩) ∧
       (20 ≤ a → a < 45 → calculate_rula_score angles BodyPartType.ARM_LEFT = some ⟨2, 2⟩) ∧
       (45 ≤ a → a < 90 → calculate_rula_score angles BodyPartType.ARM_LEFT = some ⟨3, 3⟩) ∧
       (90 ≤ a → calculate_rula_score angles BodyPartType.ARM_LEFT = some ⟨4, 4⟩))) ∧
    (angles.lookup "right_upper_arm" = some a →
      ((a < 20 → calculate_rula_score angles BodyPartType.ARM_RIGHT = some ⟨1, 1⟩) ∧
       (20 ≤ a → a < 45 → calculate_rula_score angles BodyPartType.ARM_RIGHT = some ⟨2, 2⟩) ∧
       (45 ≤ a → a < 90 → calculate_rula_score angles BodyPartType.ARM_RIGHT = some ⟨3, 3⟩) ∧
       (90 ≤ a → calculate_rula_score angles BodyPartType.ARM_RIGHT = some ⟨4, 4⟩))) ∧
    (angles.lookup "trunk_flexion" = some a →
      ((a < 5 → calculate_rula_score angles BodyPartType.UPPER_BACK = some ⟨1, 1⟩) ∧
       (5 ≤ a → a < 20 → calculate_rula_score angles BodyPartType.UPPER_BACK = some ⟨2, 2⟩) ∧
       (20 ≤ a → a < 60 → calculate_rula_score angles BodyPartType.UPPER_BACK = some ⟨3, 3⟩) ∧
       (60 ≤ a → calculate_rula_score angles BodyPartType.UPPER_BACK = some ⟨4, 4⟩))) ∧
    (relevant_key bp = none → calculate_rula_score angles bp = some ⟨2, 2⟩) := by
  refine ⟨?_, ?_, ?_, ?_, ?_⟩
  · intro h
    refine ⟨?_, ?_, ?_⟩ <;> intros <;> simp only [calculate_rula_score, h] <;> split_ifs <;>
      first | rfl | linarith
  · intro h
    refine ⟨?_, ?_, ?_, ?_⟩ <;> intros <;> simp only [calculate_rula_score, h] <;> split_ifs <;>
      first | rfl | linarith
  · intro h
    refine ⟨?_, ?_, ?_, ?_⟩ <;> intros <;> simp only [calculate_rula_score, h] <;> split_ifs <;>
      first | rfl | linarith
  · intro h
    refine ⟨?_, ?_, ?_, ?_⟩ <;> intros <;> simp only [calculate_rula_score, h] <;> split_ifs <;>
      first | rfl | linarith
  · intro h
    cases bp <;> simp_all [relevant_key, calculate_rula_score]

/-- C6 witness: the threshold theorem evaluated at the boundary angles
of the claim, one band per table, and at a body part with no table. -/
theorem rula_threshold_tables_witness :
    calculate_rula_score [("neck_flexion", (10:ℚ))] BodyPartType.NECK = some ⟨2, 2⟩ ∧
    calculate_rula_score [("neck_flexion", (9999/1000:ℚ))] BodyPartType.NECK = some ⟨1, 1⟩ ∧
    calculate_rula_score [("neck_flexion", (20:ℚ))] BodyPartType.NECK = some ⟨3, 3⟩ ∧
    calculate_rula_score [("left_upper_arm", (45:ℚ))] BodyPartType.ARM_LEFT = some ⟨3, 3⟩ ∧
    calculate_rula_score [("right_upper_arm", (90:ℚ))] BodyPartType.ARM_RIGHT = some ⟨4, 4⟩ ∧
    calculate_rula_score [("trunk_flexion", (5:ℚ))] BodyPartType.UPPER_BACK = some ⟨2, 2⟩ ∧
    calculate_rula_score [] BodyPartType.LOWER_BACK = some ⟨2, 2⟩ :=
  ⟨((rula_threshold_tables [("neck_flexion", 10)] 10 BodyPartType.NECK).1
      (by simp [List.lookup])).2.1 (by norm_num) (by norm_num),
   ((rula_threshold_tables [("neck_flexion", 9999/1000)] (9999/1000) BodyPartType.NECK).1
      (by simp [List.lookup])).1 (by norm_num),
   ((rula_threshold_tables [("neck_flexion", 20)] 20 BodyPartType.NECK).1
      (by simp [List.lookup])).2.2 (by norm_num),
   ((rula_threshold_tables [("left_upper_arm", 45)] 45 BodyPartType.ARM_LEFT).2.1
      (by simp [List.lookup])).2.2.1 (by norm_num) (by norm_num),
   ((rula_threshold_tables [("right_upper_arm", 90)] 90 BodyPartType.ARM_RIGHT).2.2.1
      (by simp [List.lookup])).2.2.2 (by norm_num),
   ((rula_threshold_tables [("trunk_flexion", 5)] 5 BodyPartType.UPPER_BACK).2.2.2.1
      (by simp [List.lookup])).2.1 (by norm_num) (by norm_num),
   (rula_threshold_tables [] 0 BodyPartType.LOWER_BACK).2.2.2.2 (by decide)⟩

/-- C7: for every angle mapping and every body part whose relevant
measurement key is absent from the mapping, the posture scorer returns
none (the empty scores dictionary) and the body part assessment
aggregator records the default posture score 2; both functions are total
in the embedding, mirroring the source where this path raises nothing. -/
theorem missing_angle_key_defaults (angles : AngleMeasurements) (bp : BodyPartType)
    (key : String) (aid : Int) (sev : SeverityLevel) (freq : FrequencyLevel)
    (hkey : relevant_key bp = some key)
    (hmiss : angles.lookup key = none) :
    calculate_rula_score angles bp = none ∧
    (create_body_part_assessment aid bp angles sev freq).rula_score = some 2 := by
  have hnone : calculate_rula_score angles bp = none := by
    cases bp <;> simp only [relevant_key, Option.some.injEq] at hkey <;>
      first
        | exact Option.noConfusion hkey
        | (subst hkey; simp [calculate_rula_score, hmiss])
  refine ⟨hnone, ?_⟩
  simp [create_body_part_assessment, hnone]

/-- C7 witness: an angle mapping without the neck key yields no posture
score for the neck and an assessment record with the default score 2. -/
theorem missing_angle_key_defaults_witness :
    calculate_rula_score [("trunk_flexion", (30:ℚ))] BodyPartType.NECK = none ∧
    (create_body_part_assessment 1 BodyPartType.NECK [("trunk_flexion", (30:ℚ))]
      SeverityLevel.PAIN FrequencyLevel.OFTEN).rula_score = some 2 :=
  missing_angle_key_defaults [("trunk_flexion", 30)] BodyPartType.NECK "neck_flexion" 1
    SeverityLevel.PAIN FrequencyLevel.OFTEN (by decide) (by decide)

/-- C8 counterexample: a one-element session whose body part has no
posture score but a red discomfort level has no posture scores present,
and its overall score is the default 2, yet its overall risk is red, not
the green the claim asserts for every session without posture scores. -/
theorem overall_defaults_counterexample :
    [mkBp (some RiskLevel.RED) none].filterMap BodyPartAssessment.rula_score = [] ∧
    (calculate_overall_scores [mkBp (some RiskLevel.RED) none]).1 = 2 ∧
    (calculate_overall_scores [mkBp (some RiskLevel.RED) none]).2 = RiskLevel.RED := by
  refine ⟨by decide, ?_, by decide⟩
  norm_num [calculate_overall_scores, mkBp, List.filterMap]

/-- C8 (amended): for every sequence of body part assessments the
overall score equals the arithmetic mean of the posture scores that are
present, and defaults to 2 when none are present; the empty sequence
returns score 2 and risk green with no error. The risk level green
default, however, is tied to the empty sequence: a nonempty sequence
without posture scores takes its risk from the discomfort counts. -/
theorem overall_score_mean_and_defaults (body_parts : List BodyPartAssessment) :
    (body_parts.filterMap BodyPartAssessment.rula_score ≠ [] →
      (calculate_overall_scores body_parts).1 =
        (body_parts.filterMap BodyPartAssessment.rula_score).sum /
          ((body_parts.filterMap BodyPartAssessment.rula_score).length : ℚ)) ∧
    (body_parts.filterMap BodyPartAssessment.rula_score = [] →
      (calculate_overall_scores body_parts).1 = 2) ∧
    calculate_overall_scores [] = (2, RiskLevel.GREEN) := by
  refine ⟨?_, ?_, by decide⟩
  · intro h
    cases body_parts with
    | nil => simp at h
    | cons a t =>
        simp only [calculate_overall_scores, List.isEmpty_cons, Bool.false_eq_true, if_false]
        rw [if_pos (by simpa [List.isEmpty_iff] using h)]
  · intro h
    cases body_parts with
    | nil => simp [calculate_overall_scores]
    | cons a t =>
        simp only [calculate_overall_scores, List.isEmpty_cons, Bool.false_eq_true, if_false]
        rw [if_neg (by simp [List.isEmpty_iff, h])]

/-- C8 witness: a session with posture scores 1 and 2 receives their
arithmetic mean, by the amended theorem at that concrete session. -/
theorem overall_score_mean_and_defaults_witness :
    (calculate_overall_scores [mkBp none (some 1), mkBp none (some 2)]).1 =
      ([mkBp none (some 1), mkBp none (some 2)].filterMap BodyPartAssessment.rula_score).sum /
        (([mkBp none (some 1), mkBp none (some 2)].filterMap BodyPartAssessment.rula_score).length : ℚ) :=
  (overall_score_mean_and_defaults [mkBp none (some 1), mkBp none (some 2)]).1 (by decide)

/-- C9: for every integer final posture score in the observed range 1 to
7, the posture risk classifier returns green exactly on scores at most
2, yellow exactly on scores above 2 and at most 4, and red exactly above
4; and the thresholds differ from the discomfort classifier, which maps
the score 3 to a different level. -/
theorem rula_risk_characterization :
    (∀ n : Int, 1 ≤ n → n ≤ 7 →
      ((get_risk_level_from_rula_score n = RiskLevel.GREEN ↔ n ≤ 2) ∧
       (get_risk_level_from_rula_score n = RiskLevel.YELLOW ↔ (2 < n ∧ n ≤ 4)) ∧
       (get_risk_level_from_rula_score n = RiskLevel.RED ↔ 4 < n))) ∧
    get_risk_level_from_rula_score 3 ≠ get_gotrak_risk_level 3 := by
  constructor
  · intro n h1 h2
    unfold get_risk_level_from_rula_score
    split_ifs with ha hb <;> refine ⟨?_, ?_, ?_⟩ <;> simp_all <;> omega
  · decide

/-- C9 witness: the characterization evaluated at the scores 3, 2 and 5. -/
theorem rula_risk_characterization_witness :
    (get_risk_level_from_rula_score 3 = RiskLevel.YELLOW ↔ ((2:Int) < 3 ∧ (3:Int) ≤ 4)) ∧
    (get_risk_level_from_rula_score 2 = RiskLevel.GREEN ↔ (2:Int) ≤ 2) ∧
    (get_risk_level_from_rula_score 5 = RiskLevel.RED ↔ (4:Int) < 5) :=
  ⟨(rula_risk_characterization.1 3 (by decide) (by decide)).2.1,
   (rula_risk_characterization.1 2 (by decide) (by decide)).1,
   (rula_risk_characterization.1 5 (by decide) (by decide)).2.2⟩

/-- C10: for every valid severity and frequency pair, the discomfort
score lies in the set of achievable products 1, 2, 3, 4, 6, 8, 9, 12,
16; the score 5 is never produced, so the red branch for 5 in the
classifier is unreachable from survey input; and composing scorer and
classifier gives red exactly on 8, 9, 12, 16, yellow exactly on 6 and
green exactly on 1 to 4. -/
theorem achievable_gotrak_scores (s : SeverityLevel) (f : FrequencyLevel) :
    calculate_gotrak_score s f ∈ ([1, 2, 3, 4, 6, 8, 9, 12, 16] : List Int) ∧
    calculate_gotrak_score s f ≠ 5 ∧
    (get_gotrak_risk_level (calculate_gotrak_score s f) = RiskLevel.RED ↔
      calculate_gotrak_score s f ∈ ([8, 9, 12, 16] : List Int)) ∧
    (get_gotrak_risk_level (calculate_gotrak_score s f) = RiskLevel.YELLOW ↔
      calculate_gotrak_score s f = 6) ∧
    (get_gotrak_risk_level (calculate_gotrak_score s f) = RiskLevel.GREEN ↔
      calculate_gotrak_score s f ∈ ([1, 2, 3, 4] : List Int)) := by
  cases s <;> cases f <;> decide

/-- C10 witness: the theorem evaluated at severe pain and sometimes,
whose product 8 is classified red. -/
theorem achievable_gotrak_scores_witness :
    calculate_gotrak_score SeverityLevel.SEVERE_PAIN FrequencyLevel.SOMETIMES ∈
      ([1, 2, 3, 4, 6, 8, 9, 12, 16] : List Int) ∧
    calculate_gotrak_score SeverityLevel.SEVERE_PAIN FrequencyLevel.SOMETIMES ≠ 5 ∧
    (get_gotrak_risk_level (calculate_gotrak_score SeverityLevel.SEVERE_PAIN FrequencyLevel.SOMETIMES) =
        RiskLevel.RED ↔
      calculate_gotrak_score SeverityLevel.SEVERE_PAIN FrequencyLevel.SOMETIMES ∈
        ([8, 9, 12, 16] : List Int)) ∧
    (get_gotrak_risk_level (calculate_gotrak_score SeverityLevel.SEVERE_PAIN FrequencyLevel.SOMETIMES) =
        RiskLevel.YELLOW ↔
      calculate_gotrak_score SeverityLevel.SEVERE_PAIN FrequencyLevel.SOMETIMES = 6) ∧
    (get_gotrak_risk_level (calculate_gotrak_score SeverityLevel.SEVERE_PAIN FrequencyLevel.SOMETIMES) =
        RiskLevel.GREEN ↔
      calculate_gotrak_score SeverityLevel.SEVERE_PAIN FrequencyLevel.SOMETIMES ∈
        ([1, 2, 3, 4] : List Int)) :=
  achievable_gotrak_scores SeverityLevel.SEVERE_PAIN FrequencyLevel.SOMETIMES

end ErgoRisk
